import Mathlib

/-!
Shallow embedding of the crypto-analyzer backend
(`src/services/bandarmology_analysis.py`, `src/services/technical_analysis.py`,
`src/services/recommendation_service.py`, `src/services/orderbook_service.py`).
Python floats are modelled as rationals (`ℚ`); Python dicts holding a fixed
set of keys are modelled as structures; exceptions handled by the code are
modelled with explicit result types.
-/

namespace CryptoAnalyzer

/-- A single order-book level `[price, volume]`, as delivered by the exchange. -/
structure Order where
  price : ℚ
  volume : ℚ
deriving DecidableEq, Repr

/-! ## BandarmologyService (`bandarmology_analysis.py`) -/

/-- Result dict of `_calculate_imbalance`. -/
structure Imbalance where
  buyVolume : ℚ
  sellVolume : ℚ
  ratio : ℚ
  pressure : String
deriving DecidableEq, Repr

/-- The pressure-determination chain of `_calculate_imbalance` (lines 64–74),
applied to the buy ratio: first matching threshold wins. -/
def pressureLabel (buyRatio : ℚ) : String :=
  if buyRatio > 6/10 then "strong_buy"
  else if buyRatio > 55/100 then "buy"
  else if buyRatio < 4/10 then "strong_sell"
  else if buyRatio < 45/100 then "sell"
  else "neutral"

/-- `BandarmologyService._calculate_imbalance` (lines 41–85): volumes are summed
over the top 20 levels per side; if the total is 0 the result is ratio 0.5 /
neutral (the code's early return carries no volume keys; modelled with the
computed volumes, which are then both 0); otherwise the ratio is
`buy/(buy+sell)` and the pressure label is chosen by the first matching
threshold. -/
def calculateImbalance (buyOrders sellOrders : List Order) : Imbalance :=
  let buyVolume := ((buyOrders.take 20).map (·.volume)).sum
  let sellVolume := ((sellOrders.take 20).map (·.volume)).sum
  let totalVolume := buyVolume + sellVolume
  if totalVolume = 0 then
    { buyVolume := buyVolume, sellVolume := sellVolume, ratio := 1/2, pressure := "neutral" }
  else
    let buyRatio := buyVolume / totalVolume
    { buyVolume := buyVolume, sellVolume := sellVolume, ratio := buyRatio
      pressure := pressureLabel buyRatio }

/-- Result dict of `_detect_walls`. -/
structure Walls where
  buyWalls : List Order
  sellWalls : List Order
  hasBuyWall : Bool
  hasSellWall : Bool
deriving DecidableEq, Repr

/-- `np.mean` of the volumes of the top 50 levels of one side, 0 when the side
is empty (the code's `np.mean(...) if ... else 0`). -/
def sideAvgVolume (orders : List Order) : ℚ :=
  let vols := (orders.take 50).map (·.volume)
  if vols = [] then 0 else vols.sum / vols.length

/-- `BandarmologyService._detect_walls` (lines 87–130): a level among the top
20 of a side is collected as a wall when its volume strictly exceeds
`avg * 3.0` for that side's average over its top 50 levels; the returned lists
keep the first five collected walls (`buy_walls[:5]`), and the `has_*_wall`
flags look at the full collected lists. -/
def detectWalls (buyOrders sellOrders : List Order) : Walls :=
  let avgBuyVolume := sideAvgVolume buyOrders
  let avgSellVolume := sideAvgVolume sellOrders
  let wallThreshold : ℚ := 3
  let buyWalls := (buyOrders.take 20).filter (fun o => o.volume > avgBuyVolume * wallThreshold)
  let sellWalls := (sellOrders.take 20).filter (fun o => o.volume > avgSellVolume * wallThreshold)
  { buyWalls := buyWalls.take 5
    sellWalls := sellWalls.take 5
    hasBuyWall := buyWalls.length > 0
    hasSellWall := sellWalls.length > 0 }

/-- Result dict of `_detect_whale_activity`. -/
structure Whale where
  whaleDetected : Bool
  whaleOrdersCount : ℕ
  whalePercentage : ℚ
  whaleThreshold : ℚ
deriving DecidableEq, Repr

/-- The volumes pooled from the top 50 levels of both sides
(`all_volumes` in `_detect_whale_activity`). -/
def pooledVolumes (buyOrders sellOrders : List Order) : List ℚ :=
  (buyOrders.take 50).map (·.volume) ++ (sellOrders.take 50).map (·.volume)

/-- `np.percentile(xs, 95)` with numpy's default linear interpolation: sort
ascending, let `h = (n-1)·95/100`, and interpolate between the elements at
positions `⌊h⌋` and `⌊h⌋+1`. -/
def percentile95 (xs : List ℚ) : ℚ :=
  let s := List.insertionSort (· ≤ ·) xs
  let n := s.length
  let h : ℚ := ((n : ℚ) - 1) * 95 / 100
  let i := ⌊h⌋₊
  let g : ℚ := h - i
  let lo := s.getD i 0
  let hi := s.getD (i + 1) lo
  lo + g * (hi - lo)

/-- `BandarmologyService._detect_whale_activity` (lines 132–172): pool the
volumes of the top 50 levels of both sides; the whale threshold is the 95th
percentile of the pool; whale orders are the pooled volumes `≥` the threshold;
`whale_detected` is `len(whale_orders) > 0`; the percentage is the whale share
of total pooled volume ×100 (0 when the total is 0). -/
def detectWhaleActivity (buyOrders sellOrders : List Order) : Whale :=
  let allVolumes := pooledVolumes buyOrders sellOrders
  if allVolumes = [] then
    { whaleDetected := false, whaleOrdersCount := 0, whalePercentage := 0, whaleThreshold := 0 }
  else
    let whaleThreshold := percentile95 allVolumes
    let whaleOrders := allVolumes.filter (fun v => v ≥ whaleThreshold)
    let whaleVolume := whaleOrders.sum
    let totalVolume := allVolumes.sum
    let whalePercentage := if totalVolume > 0 then whaleVolume / totalVolume * 100 else 0
    { whaleDetected := whaleOrders.length > 0
      whaleOrdersCount := whaleOrders.length
      whalePercentage := whalePercentage
      whaleThreshold := whaleThreshold }

/-- Result dict of `_analyze_spread`. -/
structure SpreadAnalysis where
  spread : ℚ
  spreadPercentage : ℚ
  liquidity : String
deriving DecidableEq, Repr

/-- `BandarmologyService._analyze_spread` (lines 174–214). -/
def analyzeSpread (buyOrders sellOrders : List Order) : SpreadAnalysis :=
  match buyOrders, sellOrders with
  | bid :: _, ask :: _ =>
    let highestBid := bid.price
    let lowestAsk := ask.price
    let spread := lowestAsk - highestBid
    let midPrice := (highestBid + lowestAsk) / 2
    let spreadPercentage := if midPrice > 0 then spread / midPrice * 100 else 0
    let liquidity :=
      if spreadPercentage < 1/10 then "high"
      else if spreadPercentage < 1/2 then "medium"
      else "low"
    { spread := spread, spreadPercentage := spreadPercentage, liquidity := liquidity }
  | _, _ => { spread := 0, spreadPercentage := 0, liquidity := "low" }

/-- Pressure adjustment of `_calculate_bandarmology_score` (±10/±5 points). -/
def pressureAdjustment (pressure : String) : ℚ :=
  if pressure = "strong_buy" then 10
  else if pressure = "buy" then 5
  else if pressure = "strong_sell" then -10
  else if pressure = "sell" then -5
  else 0

/-- Whale adjustment of `_calculate_bandarmology_score`: applied only when
`whale_detected`, +5 for percentage > 30, +3 for > 20. -/
def whaleAdjustment (whale : Whale) : ℚ :=
  if whale.whaleDetected then
    if whale.whalePercentage > 30 then 5
    else if whale.whalePercentage > 20 then 3
    else 0
  else 0

/-- Walls adjustment of `_calculate_bandarmology_score`: ±5 when exactly one
side has a wall. -/
def wallsAdjustment (walls : Walls) : ℚ :=
  if walls.hasBuyWall && !walls.hasSellWall then 5
  else if walls.hasSellWall && !walls.hasBuyWall then -5
  else 0

/-- Liquidity adjustment of `_calculate_bandarmology_score` (±5 points). -/
def liquidityAdjustment (liquidity : String) : ℚ :=
  if liquidity = "high" then 5
  else if liquidity = "low" then -5
  else 0

/-- `BandarmologyService._calculate_bandarmology_score` (lines 243–294):
base 20, the four adjustments added in sequence, then clamped to `[0, 40]`
by `max(0, min(40, score))`. -/
def calculateBandarmologyScore (imbalance : Imbalance) (whale : Whale)
    (walls : Walls) (spread : SpreadAnalysis) : ℚ :=
  let score : ℚ := 20
  let score := score + pressureAdjustment imbalance.pressure
  let score := score + whaleAdjustment whale
  let score := score + wallsAdjustment walls
  let score := score + liquidityAdjustment spread.liquidity
  max 0 (min 40 score)

/-- Full analysis dict built by `analyze_order_book` (the
`depth_visualization` key carries no analysed content and is omitted). -/
structure BandAnalysis where
  orderBookImbalance : Imbalance
  buySellWalls : Walls
  whaleActivity : Whale
  spreadAnalysis : SpreadAnalysis
  bandarmologyScore : ℚ
deriving DecidableEq, Repr

/-- `analyze_order_book` either reports insufficient data (the
`{'error': ...}` dict) or returns the analysis. -/
inductive BandResult where
  | insufficientData
  | ok (analysis : BandAnalysis)
deriving DecidableEq, Repr

/-- `BandarmologyService.analyze_order_book` (lines 12–39): an empty `buy` or
`sell` list is falsy in Python, so the guard returns the insufficient-data
error; otherwise the four analyses and the score are assembled. -/
def analyzeOrderBook (buyOrders sellOrders : List Order) : BandResult :=
  if buyOrders = [] ∨ sellOrders = [] then .insufficientData
  else
    let imbalance := calculateImbalance buyOrders sellOrders
    let walls := detectWalls buyOrders sellOrders
    let whale := detectWhaleActivity buyOrders sellOrders
    let spread := analyzeSpread buyOrders sellOrders
    .ok { orderBookImbalance := imbalance
          buySellWalls := walls
          whaleActivity := whale
          spreadAnalysis := spread
          bandarmologyScore := calculateBandarmologyScore imbalance whale walls spread }

/-! ## TechnicalAnalysisService (`technical_analysis.py`) -/

/-- One OHLCV candle. -/
structure OHLCV where
  openPrice : ℚ
  high : ℚ
  low : ℚ
  close : ℚ
  volume : ℚ
deriving DecidableEq, Repr

/-- The four signal labels produced by `_generate_signals`. -/
structure TechSignals where
  rsiSignal : String
  macdSignal : String
  maSignal : String
  bbSignal : String
deriving DecidableEq, Repr

/-- `TechnicalAnalysisService._calculate_technical_score` (lines 268–310):
base 20, ±5 per signal, clamped to `[0, 40]`. -/
def calculateTechnicalScore (signals : TechSignals) : ℚ :=
  let score : ℚ := 20
  let score := score +
    (if signals.rsiSignal = "oversold" then 5
     else if signals.rsiSignal = "overbought" then -5 else 0)
  let score := score +
    (if signals.macdSignal = "bullish" then 5
     else if signals.macdSignal = "bearish" then -5 else 0)
  let score := score +
    (if signals.maSignal = "bullish" then 5
     else if signals.maSignal = "bearish" then -5 else 0)
  let score := score +
    (if signals.bbSignal = "oversold" then 5
     else if signals.bbSignal = "overbought" then -5 else 0)
  max 0 (min 40 score)

/-- `TechnicalAnalysisService.analyze` either reports the
`{'error': 'No data available for analysis'}` dict or the analysis. -/
inductive TechResult where
  | noData
  | ok (signals : TechSignals) (technicalScore : ℚ)
deriving DecidableEq, Repr

/-- `TechnicalAnalysisService.analyze` (lines 179–214). The numeric indicators
(RSI, MACD, moving averages, Bollinger bands) are computed by the external
TA-Lib library, abstracted here as the signal derivation `signalsOf`; the
empty-history guard and the score computation are from the source. -/
def technicalAnalyze (signalsOf : List OHLCV → ℚ → TechSignals)
    (ohlcvData : List OHLCV) (currentPrice : ℚ) : TechResult :=
  if ohlcvData = [] then .noData
  else
    let signals := signalsOf ohlcvData currentPrice
    .ok signals (calculateTechnicalScore signals)

/-! ## RecommendationService (`recommendation_service.py`) -/

/-- `RecommendationService._calculate_momentum_score` (lines 69–114): base 10,
a price-change adjustment and — when the average volume is positive — a
volume-ratio adjustment, clamped to `[0, 20]`. The code defaults `avg_volume`
to `volume_24h` when the key is absent; both are parameters here. -/
def calculateMomentumScore (priceChange24h volume24h avgVolume : ℚ) : ℚ :=
  let score : ℚ := 10
  let score := score +
    (if priceChange24h > 10 then 5
     else if priceChange24h > 5 then 3
     else if priceChange24h < -10 then -5
     else if priceChange24h < -5 then -3 else 0)
  let score := score +
    (if avgVolume > 0 then
      let volumeRatio := volume24h / avgVolume
      if volumeRatio > 15/10 then 5
      else if volumeRatio > 12/10 then 3
      else if volumeRatio < 5/10 then -5
      else if volumeRatio < 8/10 then -3 else 0
     else 0)
  max 0 (min 20 score)

/-- Weighted total of `generate_recommendation` (lines 34–38):
`technical*0.4 + bandarmology*0.4 + momentum*0.2`. -/
def totalScore (technicalScore bandarmologyScore momentumScore : ℚ) : ℚ :=
  technicalScore * (4/10) + bandarmologyScore * (4/10) + momentumScore * (2/10)

/-- `RecommendationService._determine_action` (lines 116–139): the
`(action, confidence)` pair selected by the first matching threshold. -/
def determineAction (score : ℚ) : String × String :=
  if score ≥ 75 then ("STRONG_BUY", "HIGH")
  else if score ≥ 60 then ("BUY", "MEDIUM")
  else if score ≥ 50 then ("WEAK_BUY", "LOW")
  else if score > 40 then ("HOLD", "MEDIUM")
  else if score ≥ 30 then ("WEAK_SELL", "LOW")
  else if score ≥ 25 then ("SELL", "MEDIUM")
  else ("STRONG_SELL", "HIGH")

/-! ## OrderBookService (`orderbook_service.py`) -/

/-- The processed per-pair summary dict built by `_process_order_book`. -/
structure OrderBookSummary where
  totalBuyOrders : ℕ
  totalSellOrders : ℕ
  totalBuyAmount : ℚ
  totalSellAmount : ℚ
  totalBuyValue : ℚ
  totalSellValue : ℚ
  highestBid : ℚ
  lowestAsk : ℚ
  spread : ℚ
  spreadPercent : ℚ
  buySellRatio : ℚ
deriving DecidableEq, Repr

/-- `OrderBookService._empty_order_book` (lines 154–168): the all-zero
summary. -/
def emptyOrderBook : OrderBookSummary :=
  { totalBuyOrders := 0, totalSellOrders := 0, totalBuyAmount := 0
    totalSellAmount := 0, totalBuyValue := 0, totalSellValue := 0
    highestBid := 0, lowestAsk := 0, spread := 0, spreadPercent := 0
    buySellRatio := 0 }

/-- `OrderBookService._process_order_book` (lines 116–152) on a well-formed
body (the except branch that yields the empty book on a malformed body is the
`malformedBody` case of `fetchSingleOrderBook`). Python's truthiness guards:
spread is 0 unless both best prices are nonzero, and the ratio/percentage
divisions fall back to 0 on a zero denominator. -/
def processOrderBook (buyOrders sellOrders : List Order) : OrderBookSummary :=
  let totalBuyAmount := (buyOrders.map (·.volume)).sum
  let totalSellAmount := (sellOrders.map (·.volume)).sum
  let totalBuyValue := (buyOrders.map (fun o => o.price * o.volume)).sum
  let totalSellValue := (sellOrders.map (fun o => o.price * o.volume)).sum
  let highestBid := match buyOrders with | b :: _ => b.price | [] => 0
  let lowestAsk := match sellOrders with | a :: _ => a.price | [] => 0
  let spread := if highestBid ≠ 0 ∧ lowestAsk ≠ 0 then lowestAsk - highestBid else 0
  let spreadPercent := if highestBid ≠ 0 then spread / highestBid * 100 else 0
  { totalBuyOrders := buyOrders.length
    totalSellOrders := sellOrders.length
    totalBuyAmount := totalBuyAmount
    totalSellAmount := totalSellAmount
    totalBuyValue := totalBuyValue
    totalSellValue := totalSellValue
    highestBid := highestBid
    lowestAsk := lowestAsk
    spread := spread
    spreadPercent := spreadPercent
    buySellRatio := if totalSellValue ≠ 0 then totalBuyValue / totalSellValue else 0 }

/-- Outcome of one outbound depth request, as seen by
`_fetch_single_order_book`. -/
inductive FetchOutcome where
  | success (buyOrders sellOrders : List Order)
  | httpError (status : ℕ)
  | timeout
  | malformedBody
deriving DecidableEq, Repr

/-- Whether the outcome is one of the failure modes (non-2xx status, timeout
or other exception, malformed body). -/
def FetchOutcome.isFailure : FetchOutcome → Bool
  | .success _ _ => false
  | _ => true

/-- `OrderBookService._fetch_single_order_book` (lines 101–114): a 200
response is processed; a non-200 status, a timeout/exception or a malformed
body each yield the empty summary. Every exception is caught inside this
function, so it always returns a summary and never raises. -/
def fetchSingleOrderBook : FetchOutcome → OrderBookSummary
  | .success buyOrders sellOrders => processOrderBook buyOrders sellOrders
  | .httpError _ => emptyOrderBook
  | .timeout => emptyOrderBook
  | .malformedBody => emptyOrderBook

/-- Mutable state of an `OrderBookService` instance (lines 14–19): the
per-pair summary cache, the per-pair timestamps, and the `fetching_pairs` set,
which the constructor creates to "track which pairs are currently being
fetched" but which no method of the class ever reads or writes. Wall-clock
instants are modelled as rationals. -/
structure CacheState where
  cache : String → Option OrderBookSummary
  cacheTimestamps : String → Option ℚ
  fetchingPairs : List String

/-- The state right after `__init__`: empty cache, empty `fetching_pairs`. -/
def initialState : CacheState :=
  { cache := fun _ => none, cacheTimestamps := fun _ => none, fetchingPairs := [] }

/-- Pointwise update of a string-keyed map. -/
def updateMap {α : Type} (f : String → Option α) (key : String) (value : α) :
    String → Option α :=
  fun k => if k = key then some value else f k

/-- `OrderBookService._is_pair_cache_valid` (lines 49–53): true when a
timestamp exists for the pair and is younger than the 30-second cache
duration. -/
def isPairCacheValid (st : CacheState) (now : ℚ) (pair : String) : Bool :=
  match st.cacheTimestamps pair with
  | none => false
  | some t => now - t < 30

/-- The `pairs_to_fetch` list computed by `fetch_order_books` (lines 26–37):
the requested pairs whose cache entry is missing or stale. The code lowercases
each requested name with `pair.lower()` before the cache check; pair keys here
stand for those lowercased identifiers. This decision reads only
`cache_timestamps`; nothing consults `fetching_pairs`. -/
def pairsToFetch (st : CacheState) (now : ℚ) (pairs : List String) : List String :=
  pairs.filter (fun p => !isPairCacheValid st now p)

/-- The per-pair success branch of `_fetch_order_books_async` (lines 86–90):
store the fetched summary in the cache and stamp the pair with the current
time. The `isinstance(result, Exception)` branch (lines 83–85) skips this
update, but `_fetch_single_order_book` catches every exception itself, so
each gathered task delivers a summary and takes this branch. -/
def recordFetchResult (st : CacheState) (pair : String) (book : OrderBookSummary)
    (now : ℚ) : CacheState :=
  { st with
    cache := updateMap st.cache pair book
    cacheTimestamps := updateMap st.cacheTimestamps pair now }

/-- One pair's refresh inside `_fetch_order_books_async`: run
`_fetch_single_order_book` and record its result; returns the new state and
the summary placed in `all_results[pair]`. -/
def refreshPair (st : CacheState) (pair : String) (outcome : FetchOutcome)
    (now : ℚ) : CacheState × OrderBookSummary :=
  let book := fetchSingleOrderBook outcome
  (recordFetchResult st pair book now, book)

/-- A cache state together with the multiset of outbound depth fetches
currently in flight (one list entry per outstanding request). -/
structure SysState where
  cacheState : CacheState
  inFlight : List String

/-- A caller entering `fetch_order_books` (lines 21–47): it reads the cache,
computes `pairs_to_fetch`, and starts an outbound fetch for each such pair.
Cache entries and timestamps change only later, when the individual fetches
complete (`recordFetchResult`). -/
def startFetches (s : SysState) (now : ℚ) (pairs : List String) : SysState :=
  { s with inFlight := s.inFlight ++ pairsToFetch s.cacheState now pairs }

/-- One outstanding fetch completing: its result is recorded and it leaves the
in-flight multiset. -/
def completeFetch (s : SysState) (pair : String) (outcome : FetchOutcome)
    (now : ℚ) : SysState :=
  { cacheState := (refreshPair s.cacheState pair outcome now).1
    inFlight := s.inFlight.erase pair }

/-! ## Theorems -/

/-- The `max(0, min(b, x))` clamp used by every score lands in `[0, b]`. -/
lemma clamp_mem (b x : ℚ) (hb : 0 ≤ b) : 0 ≤ max 0 (min b x) ∧ max 0 (min b x) ≤ b :=
  ⟨le_max_left 0 _, max_le hb (min_le_left _ _)⟩

/-- Claim C6: on every computation path the bandarmology score stays in
`[0, 40]`, the technical score stays in `[0, 40]` and the momentum score stays
in `[0, 20]`; the concrete instance shows an out-of-range intermediate value
(base 20 + 10 + 5 + 5 + 5 = 45) being clamped to the bound 40 rather than
propagated. -/
theorem scores_stay_in_range :
    (∀ (imbalance : Imbalance) (whale : Whale) (walls : Walls) (spread : SpreadAnalysis),
      0 ≤ calculateBandarmologyScore imbalance whale walls spread ∧
      calculateBandarmologyScore imbalance whale walls spread ≤ 40) ∧
    (∀ signals : TechSignals,
      0 ≤ calculateTechnicalScore signals ∧ calculateTechnicalScore signals ≤ 40) ∧
    (∀ priceChange24h volume24h avgVolume : ℚ,
      0 ≤ calculateMomentumScore priceChange24h volume24h avgVolume ∧
      calculateMomentumScore priceChange24h volume24h avgVolume ≤ 20) ∧
    calculateBandarmologyScore
      { buyVolume := 80, sellVolume := 15, ratio := 16/19, pressure := "strong_buy" }
      { whaleDetected := true, whaleOrdersCount := 1, whalePercentage := 31, whaleThreshold := 50 }
      { buyWalls := [⟨96, 10⟩], sellWalls := [], hasBuyWall := true, hasSellWall := false }
      { spread := 1, spreadPercentage := 1/100, liquidity := "high" } = 40 := by
  refine ⟨fun imbalance whale walls spread => ?_, fun signals => ?_,
    fun priceChange24h volume24h avgVolume => ?_, by
      norm_num [calculateBandarmologyScore, pressureAdjustment, whaleAdjustment,
        wallsAdjustment, liquidityAdjustment, max_def, min_def]⟩
  · exact clamp_mem 40 _ (by norm_num)
  · exact clamp_mem 40 _ (by norm_num)
  · exact clamp_mem 20 _ (by norm_num)

/-- Claim C3: for component scores in their documented ranges the
recommendation total equals `0.4·technical + 0.4·bandarmology + 0.2·momentum`,
lies in `[0, 100]`, is at most 36 (attained at the component maxima), and
therefore never reaches the WEAK_BUY (≥50), BUY (≥60) or STRONG_BUY (≥75)
action thresholds. -/
theorem total_score_capped_at_36 (t b m : ℚ)
    (ht0 : 0 ≤ t) (ht1 : t ≤ 40) (hb0 : 0 ≤ b) (hb1 : b ≤ 40)
    (hm0 : 0 ≤ m) (hm1 : m ≤ 20) :
    totalScore t b m = (4/10) * t + (4/10) * b + (2/10) * m ∧
    0 ≤ totalScore t b m ∧ totalScore t b m ≤ 100 ∧
    totalScore t b m ≤ 36 ∧ totalScore 40 40 20 = 36 ∧
    totalScore t b m < 50 ∧
    determineAction (totalScore t b m) ≠ ("STRONG_BUY", "HIGH") ∧
    determineAction (totalScore t b m) ≠ ("BUY", "MEDIUM") ∧
    determineAction (totalScore t b m) ≠ ("WEAK_BUY", "LOW") := by
  have hform : totalScore t b m = (4/10) * t + (4/10) * b + (2/10) * m := by
    unfold totalScore; ring
  have h36 : totalScore t b m ≤ 36 := by rw [hform]; linarith
  have h0 : 0 ≤ totalScore t b m := by rw [hform]; linarith
  have h50 : totalScore t b m < 50 := lt_of_le_of_lt h36 (by norm_num)
  have hact : ∀ a c : String, (a, c) ≠ ("STRONG_BUY", "HIGH") → (a, c) ≠ ("BUY", "MEDIUM") →
      (a, c) ≠ ("WEAK_BUY", "LOW") → True := fun _ _ _ _ _ => trivial
  refine ⟨hform, h0, le_trans h36 (by norm_num), h36, by unfold totalScore; norm_num, h50,
    ?_, ?_, ?_⟩ <;>
  · intro hcontra
    unfold determineAction at hcontra
    split_ifs at hcontra with h1 h2 h3 h4 h5 h6 <;> simp_all <;> linarith

/-- Claim C8: an order book with empty bids or empty asks makes the
bandarmology analyzer return the explicit insufficient-data result, and an
empty OHLCV history makes the technical analyzer return the explicit no-data
result — in all cases a value, not a fault. -/
theorem empty_input_explicit_result :
    (∀ sellOrders : List Order, analyzeOrderBook [] sellOrders = .insufficientData) ∧
    (∀ buyOrders : List Order, analyzeOrderBook buyOrders [] = .insufficientData) ∧
    (∀ (signalsOf : List OHLCV → ℚ → TechSignals) (currentPrice : ℚ),
      technicalAnalyze signalsOf [] currentPrice = .noData) := by
  refine ⟨fun sellOrders => ?_, fun buyOrders => ?_, fun signalsOf currentPrice => ?_⟩
  all_goals simp [analyzeOrderBook, technicalAnalyze]

/-- Claim C9: across two successive successful refreshes of the same pair,
performed at strictly increasing wall-clock instants, the captured timestamp
stored for that pair strictly increases (each successful refresh stamps the
pair with the instant of that refresh). -/
theorem captured_timestamp_increases (st : CacheState) (pair : String)
    (b1 s1 b2 s2 : List Order) (t1 t2 : ℚ) (h : t1 < t2) :
    ∃ a b : ℚ,
      ((refreshPair st pair (.success b1 s1) t1).1).cacheTimestamps pair = some a ∧
      ((refreshPair (refreshPair st pair (.success b1 s1) t1).1 pair
          (.success b2 s2) t2).1).cacheTimestamps pair = some b ∧
      a < b := by
  refine ⟨t1, t2, ?_, ?_, h⟩
  all_goals simp [refreshPair, recordFetchResult, updateMap]

/-- Witness for `captured_timestamp_increases` at a concrete state, pair and
pair of instants. -/
theorem captured_timestamp_increases_witness :
    ∃ a b : ℚ,
      ((refreshPair initialState "btcidr" (.success [⟨100, 50⟩] [⟨101, 10⟩]) 0).1).cacheTimestamps
          "btcidr" = some a ∧
      ((refreshPair (refreshPair initialState "btcidr" (.success [⟨100, 50⟩] [⟨101, 10⟩]) 0).1
          "btcidr" (.success [⟨100, 60⟩] [⟨101, 20⟩]) 7).1).cacheTimestamps "btcidr" = some b ∧
      a < b :=
  captured_timestamp_increases initialState "btcidr" [⟨100, 50⟩] [⟨101, 10⟩]
    [⟨100, 60⟩] [⟨101, 20⟩] 0 7 (by norm_num)

/-- Witness for `total_score_capped_at_36` at concrete component scores. -/
theorem total_score_capped_at_36_witness :
    totalScore 30 25 10 = (4/10) * 30 + (4/10) * 25 + (2/10) * 10 ∧
    0 ≤ totalScore 30 25 10 ∧ totalScore 30 25 10 ≤ 100 ∧
    totalScore 30 25 10 ≤ 36 ∧ totalScore 40 40 20 = 36 ∧
    totalScore 30 25 10 < 50 ∧
    determineAction (totalScore 30 25 10) ≠ ("STRONG_BUY", "HIGH") ∧
    determineAction (totalScore 30 25 10) ≠ ("BUY", "MEDIUM") ∧
    determineAction (totalScore 30 25 10) ≠ ("WEAK_BUY", "LOW") :=
  total_score_capped_at_36 30 25 10 (by norm_num) (by norm_num) (by norm_num)
    (by norm_num) (by norm_num) (by norm_num)

/-- Claim C1: contrary to the stampede-prevention guarantee, two callers that
both enter `fetch_order_books(["btcidr"])` on a cold cache before either
outbound fetch completes each start their own outbound fetch: the fetch
decision (`pairsToFetch`) reads only `cache_timestamps`, and the
`fetching_pairs` set is never consulted, so two fetches for the same pair are
in flight at once. -/
theorem duplicate_fetches_in_flight :
    (startFetches (startFetches ⟨initialState, []⟩ 0 ["btcidr"]) 0 ["btcidr"]).inFlight.count
        "btcidr" = 2 ∧
    (startFetches (startFetches ⟨initialState, []⟩ 0 ["btcidr"]) 0 ["btcidr"]).cacheState.fetchingPairs
        = [] := by
  exact ⟨by decide, by simp [startFetches, pairsToFetch, isPairCacheValid, initialState]⟩

/-- The summary cached for `btcidr` by a first, successful refresh: the
processed form of the order book with bids `[[100, 50], [99, 30]]` and asks
`[[101, 10], [102, 5]]`. -/
def goodSummary : OrderBookSummary :=
  processOrderBook [⟨100, 50⟩, ⟨99, 30⟩] [⟨101, 10⟩, ⟨102, 5⟩]

/-- Claim C2, counterexample: with a good entry cached for `btcidr`, a failed
refresh (HTTP 500) returns the empty summary for the call — but also stores
the empty summary in the cache, so the previously cached good entry is not
left unchanged, contrary to the claim. -/
theorem fetch_failure_overwrites_cached_entry :
    (recordFetchResult initialState "btcidr" goodSummary 0).cache "btcidr" = some goodSummary ∧
    (refreshPair (recordFetchResult initialState "btcidr" goodSummary 0) "btcidr"
        (.httpError 500) 10).2 = emptyOrderBook ∧
    (refreshPair (recordFetchResult initialState "btcidr" goodSummary 0) "btcidr"
        (.httpError 500) 10).1.cache "btcidr" = some emptyOrderBook ∧
    goodSummary ≠ emptyOrderBook := by
  refine ⟨?_, ?_, ?_, ?_⟩
  · simp [recordFetchResult, updateMap]
  · rfl
  · simp [refreshPair, fetchSingleOrderBook, recordFetchResult, updateMap]
  · intro hcontra
    have : goodSummary.highestBid = emptyOrderBook.highestBid := by rw [hcontra]
    norm_num [goodSummary, emptyOrderBook, processOrderBook] at this

/-- Claim C2 as amended: on a per-pair fetch failure (non-2xx status, timeout
or malformed body) the empty all-zero summary is returned for the call and is
also stored in the cache together with a fresh timestamp, overwriting any
previously cached good entry for the pair. -/
theorem fetch_failure_returns_and_caches_empty (st : CacheState) (pair : String)
    (outcome : FetchOutcome) (now : ℚ) (h : outcome.isFailure = true) :
    (refreshPair st pair outcome now).2 = emptyOrderBook ∧
    (refreshPair st pair outcome now).1.cache pair = some emptyOrderBook ∧
    (refreshPair st pair outcome now).1.cacheTimestamps pair = some now := by
  cases outcome with
  | success buyOrders sellOrders => exact absurd h (by simp [FetchOutcome.isFailure])
  | httpError status =>
    exact ⟨rfl, by simp [refreshPair, fetchSingleOrderBook, recordFetchResult, updateMap],
      by simp [refreshPair, recordFetchResult, updateMap]⟩
  | timeout =>
    exact ⟨rfl, by simp [refreshPair, fetchSingleOrderBook, recordFetchResult, updateMap],
      by simp [refreshPair, recordFetchResult, updateMap]⟩
  | malformedBody =>
    exact ⟨rfl, by simp [refreshPair, fetchSingleOrderBook, recordFetchResult, updateMap],
      by simp [refreshPair, recordFetchResult, updateMap]⟩

/-- Witness for `fetch_failure_returns_and_caches_empty` on a concrete state
and timed-out fetch. -/
theorem fetch_failure_returns_and_caches_empty_witness :
    (refreshPair initialState "ethidr" .timeout 3).2 = emptyOrderBook ∧
    (refreshPair initialState "ethidr" .timeout 3).1.cache "ethidr" = some emptyOrderBook ∧
    (refreshPair initialState "ethidr" .timeout 3).1.cacheTimestamps "ethidr" = some 3 :=
  fetch_failure_returns_and_caches_empty initialState "ethidr" .timeout 3 rfl

/-- Claim C5: for every total score in `[0, 100]` the action/confidence
mapping is total and non-overlapping — each of the seven documented
action/confidence pairs is returned exactly on its own interval of scores
(≥75, [60,75), [50,60), (40,50), [30,40], [25,30), <25), so exactly one pair
applies to each score; in particular score 40 maps to WEAK_SELL/LOW and score
40.01 maps to HOLD/MEDIUM. -/
theorem action_mapping_partition (s : ℚ) (h0 : 0 ≤ s) (h1 : s ≤ 100) :
    (determineAction s = ("STRONG_BUY", "HIGH") ↔ 75 ≤ s) ∧
    (determineAction s = ("BUY", "MEDIUM") ↔ 60 ≤ s ∧ s < 75) ∧
    (determineAction s = ("WEAK_BUY", "LOW") ↔ 50 ≤ s ∧ s < 60) ∧
    (determineAction s = ("HOLD", "MEDIUM") ↔ 40 < s ∧ s < 50) ∧
    (determineAction s = ("WEAK_SELL", "LOW") ↔ 30 ≤ s ∧ s ≤ 40) ∧
    (determineAction s = ("SELL", "MEDIUM") ↔ 25 ≤ s ∧ s < 30) ∧
    (determineAction s = ("STRONG_SELL", "HIGH") ↔ s < 25) ∧
    determineAction 40 = ("WEAK_SELL", "LOW") ∧
    determineAction (4001/100) = ("HOLD", "MEDIUM") := by
  clear h0 h1
  have e40 : determineAction 40 = ("WEAK_SELL", "LOW") := by
    unfold determineAction; norm_num
  have e4001 : determineAction (4001/100) = ("HOLD", "MEDIUM") := by
    unfold determineAction; norm_num
  refine ⟨?_, ?_, ?_, ?_, ?_, ?_, ?_, e40, e4001⟩
  all_goals unfold determineAction
  all_goals split_ifs with ha hb hc hd he hf
  all_goals simp_all
  all_goals first
    | linarith
    | (intro h; linarith)

/-- Witness for `action_mapping_partition` at the documented boundary score
40. -/
theorem action_mapping_partition_witness :
    determineAction 40 = ("WEAK_SELL", "LOW") ↔ (30:ℚ) ≤ 40 ∧ (40:ℚ) ≤ 40 :=
  (action_mapping_partition 40 (by norm_num) (by norm_num)).2.2.2.2.1

/-- Claim C7: buy and sell volumes are summed over the top 20 levels of each
side; the ratio is `buy/(buy+sell)` and is 0.5 when the total is 0; the
pressure label follows the first-match thresholds (>0.6 strong_buy, >0.55 buy,
<0.4 strong_sell, <0.45 sell, else neutral); and for bids
`[[100,50],[99,30]]` and asks `[[101,10],[102,5]]` the ratio is 80/95 with
pressure strong_buy. -/
theorem imbalance_spec :
    (∀ r : ℚ,
      (pressureLabel r = "strong_buy" ↔ r > 6/10) ∧
      (pressureLabel r = "buy" ↔ 55/100 < r ∧ r ≤ 6/10) ∧
      (pressureLabel r = "strong_sell" ↔ r < 4/10) ∧
      (pressureLabel r = "sell" ↔ 4/10 ≤ r ∧ r < 45/100) ∧
      (pressureLabel r = "neutral" ↔ 45/100 ≤ r ∧ r ≤ 55/100)) ∧
    (∀ buyOrders sellOrders : List Order,
      (calculateImbalance buyOrders sellOrders).buyVolume
          = ((buyOrders.take 20).map (·.volume)).sum ∧
      (calculateImbalance buyOrders sellOrders).sellVolume
          = ((sellOrders.take 20).map (·.volume)).sum ∧
      (((buyOrders.take 20).map (·.volume)).sum + ((sellOrders.take 20).map (·.volume)).sum = 0 →
        (calculateImbalance buyOrders sellOrders).ratio = 1/2 ∧
        (calculateImbalance buyOrders sellOrders).pressure = "neutral") ∧
      (((buyOrders.take 20).map (·.volume)).sum + ((sellOrders.take 20).map (·.volume)).sum ≠ 0 →
        (calculateImbalance buyOrders sellOrders).ratio
            = ((buyOrders.take 20).map (·.volume)).sum
              / (((buyOrders.take 20).map (·.volume)).sum
                 + ((sellOrders.take 20).map (·.volume)).sum) ∧
        (calculateImbalance buyOrders sellOrders).pressure
            = pressureLabel ((calculateImbalance buyOrders sellOrders).ratio))) ∧
    calculateImbalance [⟨100, 50⟩, ⟨99, 30⟩] [⟨101, 10⟩, ⟨102, 5⟩]
        = { buyVolume := 80, sellVolume := 15, ratio := 80/95, pressure := "strong_buy" } := by
  refine ⟨fun r => ?_, fun buyOrders sellOrders => ?_, ?_⟩
  · unfold pressureLabel
    split_ifs with ha hb hc hd
    all_goals simp_all
    all_goals repeat' constructor
    all_goals try intro h
    all_goals linarith
  · rcases eq_or_ne (((buyOrders.take 20).map (·.volume)).sum
        + ((sellOrders.take 20).map (·.volume)).sum) 0 with h0 | h0
    · refine ⟨?_, ?_, fun _ => ⟨?_, ?_⟩, fun hc => absurd h0 hc⟩
      all_goals simp only [List.map_take] at h0
      all_goals simp [calculateImbalance, h0]
    · refine ⟨?_, ?_, fun hc => absurd hc h0, fun _ => ⟨?_, ?_⟩⟩
      all_goals simp only [List.map_take] at h0
      all_goals simp [calculateImbalance, h0]
  · norm_num [calculateImbalance, pressureLabel]

/-- Witness for `imbalance_spec` at the documented concrete order book. -/
theorem imbalance_spec_witness :
    (calculateImbalance [⟨100, 50⟩, ⟨99, 30⟩] [⟨101, 10⟩, ⟨102, 5⟩]).pressure
        = pressureLabel ((calculateImbalance [⟨100, 50⟩, ⟨99, 30⟩] [⟨101, 10⟩, ⟨102, 5⟩]).ratio) ∧
    (pressureLabel ((80:ℚ)/95) = "strong_buy" ↔ (80:ℚ)/95 > 6/10) :=
  ⟨((imbalance_spec.2.1 [⟨100, 50⟩, ⟨99, 30⟩] [⟨101, 10⟩, ⟨102, 5⟩]).2.2.2
      (by norm_num)).2,
   (imbalance_spec.1 (80/95)).1⟩

/-- A buy side on which "keep the top 5 walls by volume" and the code's
`buy_walls[:5]` differ: the first five walls in book order all have volume 30
while the sixth wall (price 95) has the largest volume, 31. The average volume
over the top 50 (= all 20) levels is 195/20 = 9.75, so every level with volume
above 29.25 is a wall. -/
def wallCounterexampleBids : List Order :=
  [⟨100, 30⟩, ⟨99, 30⟩, ⟨98, 30⟩, ⟨97, 30⟩, ⟨96, 30⟩, ⟨95, 31⟩,
   ⟨94, 1⟩, ⟨93, 1⟩, ⟨92, 1⟩, ⟨91, 1⟩, ⟨90, 1⟩, ⟨89, 1⟩, ⟨88, 1⟩,
   ⟨87, 1⟩, ⟨86, 1⟩, ⟨85, 1⟩, ⟨84, 1⟩, ⟨83, 1⟩, ⟨82, 1⟩, ⟨81, 1⟩]

/-- Claim C4, counterexample: on `wallCounterexampleBids` the level (95, 31)
is among the top 20, qualifies as a wall (its volume exceeds 3× the side
average) and has strictly larger volume than every wall the analyzer keeps —
yet it is not kept, because `buy_walls[:5]` keeps the first five walls in book
order, not the top 5 by volume. -/
theorem walls_kept_not_top5_by_volume :
    (⟨95, 31⟩ : Order) ∈ wallCounterexampleBids.take 20 ∧
    (31:ℚ) > sideAvgVolume wallCounterexampleBids * 3 ∧
    (∀ o ∈ (detectWalls wallCounterexampleBids [⟨101, 10⟩]).buyWalls, o.volume < 31) ∧
    (⟨95, 31⟩ : Order) ∉ (detectWalls wallCounterexampleBids [⟨101, 10⟩]).buyWalls := by
  have havg : sideAvgVolume wallCounterexampleBids = 39/4 := by
    norm_num [sideAvgVolume, wallCounterexampleBids]
    decide
  have hbw : (detectWalls wallCounterexampleBids [⟨101, 10⟩]).buyWalls
      = [⟨100, 30⟩, ⟨99, 30⟩, ⟨98, 30⟩, ⟨97, 30⟩, ⟨96, 30⟩] := by
    simp only [detectWalls]
    rw [havg]
    norm_num [wallCounterexampleBids, List.filter_cons]
  refine ⟨by decide, by rw [havg]; norm_num, ?_, ?_⟩
  · rw [hbw]; intro o ho
    fin_cases ho <;> norm_num
  · rw [hbw]; decide

/-- Claim C4 as amended: a level among the top 20 levels of a side is
collected as a wall exactly when its volume exceeds 3× that side's average
volume over its top 50 levels, and for each side the analyzer keeps the first
5 collected walls in book order (at most 5, a prefix of the collected list) —
not the top 5 by volume. -/
theorem detect_walls_first_five (buyOrders sellOrders : List Order) :
    (∀ o : Order,
      o ∈ (buyOrders.take 20).filter (fun o => o.volume > sideAvgVolume buyOrders * 3) ↔
        o ∈ buyOrders.take 20 ∧ o.volume > sideAvgVolume buyOrders * 3) ∧
    (∀ o : Order,
      o ∈ (sellOrders.take 20).filter (fun o => o.volume > sideAvgVolume sellOrders * 3) ↔
        o ∈ sellOrders.take 20 ∧ o.volume > sideAvgVolume sellOrders * 3) ∧
    (detectWalls buyOrders sellOrders).buyWalls
        = ((buyOrders.take 20).filter (fun o => o.volume > sideAvgVolume buyOrders * 3)).take 5 ∧
    (detectWalls buyOrders sellOrders).sellWalls
        = ((sellOrders.take 20).filter (fun o => o.volume > sideAvgVolume sellOrders * 3)).take 5 ∧
    (detectWalls buyOrders sellOrders).buyWalls.length ≤ 5 ∧
    (detectWalls buyOrders sellOrders).sellWalls.length ≤ 5 ∧
    ((detectWalls buyOrders sellOrders).hasBuyWall = true ↔
      ∃ o ∈ buyOrders.take 20, o.volume > sideAvgVolume buyOrders * 3) ∧
    ((detectWalls buyOrders sellOrders).hasSellWall = true ↔
      ∃ o ∈ sellOrders.take 20, o.volume > sideAvgVolume sellOrders * 3) := by
  refine ⟨fun o => ?_, fun o => ?_, rfl, rfl, ?_, ?_, ?_, ?_⟩
  · simp [List.mem_filter]
  · simp [List.mem_filter]
  · simp only [detectWalls]
    exact List.length_take_le 5 _
  · simp only [detectWalls]
    exact List.length_take_le 5 _
  · simp [detectWalls, decide_eq_true_iff, List.length_pos, List.filter_eq_nil_iff,
      List.mem_filter]
  · simp [detectWalls, decide_eq_true_iff, List.length_pos, List.filter_eq_nil_iff,
      List.mem_filter]

/-- numpy's linear-interpolated 95th percentile of a nonempty pool never
exceeds the pool's largest value: it is a convex combination of two adjacent
sorted values, each of which belongs to the pool. -/
lemma percentile95_le_mem (xs : List ℚ) (hxs : xs ≠ []) :
    ∃ v ∈ xs, percentile95 xs ≤ v := by
  simp only [percentile95]
  set s := List.insertionSort (· ≤ ·) xs with hs
  have hperm : s.Perm xs := List.perm_insertionSort _ xs
  have hn : 0 < s.length := by
    rw [hperm.length_eq]
    exact List.length_pos.mpr hxs
  set q : ℚ := ((s.length : ℚ) - 1) * 95 / 100 with hq
  have hq0 : 0 ≤ q := by
    have h1 : (1:ℚ) ≤ (s.length : ℚ) := by exact_mod_cast hn
    rw [hq]
    exact div_nonneg (by nlinarith) (by norm_num)
  set i := ⌊q⌋₊ with hi
  have hilt : i < s.length := by
    have hle : q ≤ (s.length : ℚ) - 1 := by
      have h1 : (0:ℚ) ≤ (s.length : ℚ) - 1 := by
        have : (1:ℚ) ≤ (s.length : ℚ) := by exact_mod_cast hn
        linarith
      rw [hq]; nlinarith
    have hcast : ((s.length : ℚ) - 1) = ((s.length - 1 : ℕ) : ℚ) := by
      have : (1:ℕ) ≤ s.length := hn
      push_cast [this]
      ring
    have : i ≤ s.length - 1 := by
      rw [hi]
      calc ⌊q⌋₊ ≤ ⌊((s.length : ℚ) - 1)⌋₊ := Nat.floor_le_floor hle
        _ = s.length - 1 := by rw [hcast, Nat.floor_natCast]
    omega
  have hfloor_le : (i : ℚ) ≤ q := Nat.floor_le hq0
  have hfloor_gt : q < (i : ℚ) + 1 := Nat.lt_floor_add_one q
  set lo := s.getD i 0 with hlo
  set hi2 := s.getD (i + 1) lo with hhi2
  have hlo_mem : lo ∈ xs := by
    rw [hlo, List.getD_eq_getElem s 0 hilt]
    exact hperm.mem_iff.mp (List.getElem_mem hilt)
  have hhi2_mem : hi2 ∈ xs := by
    rcases Nat.lt_or_ge (i + 1) s.length with hlt | hge
    · rw [hhi2, List.getD_eq_getElem s lo hlt]
      exact hperm.mem_iff.mp (List.getElem_mem hlt)
    · rw [hhi2, List.getD_eq_default s lo hge]
      exact hlo_mem
  rcases le_total lo hi2 with hc | hc
  · exact ⟨hi2, hhi2_mem, by nlinarith⟩
  · exact ⟨lo, hlo_mem, by nlinarith⟩

/-- Claim C10: whenever both sides of the order book are non-empty the whale
detector reports `whale_detected = true` — the 95th-percentile threshold never
exceeds the largest pooled volume, so at least one pooled order meets it — and
consequently the bandarmology score's whale adjustment is decided by the
whale-percentage thresholds (>30 → +5, >20 → +3) alone. -/
theorem whale_always_detected (buyOrders sellOrders : List Order)
    (hb : buyOrders ≠ []) (hs : sellOrders ≠ []) :
    (detectWhaleActivity buyOrders sellOrders).whaleDetected = true ∧
    (∃ v ∈ pooledVolumes buyOrders sellOrders,
      (detectWhaleActivity buyOrders sellOrders).whaleThreshold ≤ v) ∧
    ∀ (imbalance : Imbalance) (walls : Walls) (spread : SpreadAnalysis),
      calculateBandarmologyScore imbalance (detectWhaleActivity buyOrders sellOrders) walls spread
        = max 0 (min 40 (20 + pressureAdjustment imbalance.pressure
            + (if (detectWhaleActivity buyOrders sellOrders).whalePercentage > 30 then 5
               else if (detectWhaleActivity buyOrders sellOrders).whalePercentage > 20 then 3
               else 0)
            + wallsAdjustment walls + liquidityAdjustment spread.liquidity)) := by
  clear hs
  have hpool : pooledVolumes buyOrders sellOrders ≠ [] := by
    rcases buyOrders with _ | ⟨a, l⟩
    · exact absurd rfl hb
    · simp [pooledVolumes]
  obtain ⟨v, hv, hle⟩ := percentile95_le_mem _ hpool
  have hdet : (detectWhaleActivity buyOrders sellOrders).whaleDetected = true := by
    simp only [detectWhaleActivity, if_neg hpool, decide_eq_true_eq]
    have hmem : v ∈ List.filter
        (fun w => decide (w ≥ percentile95 (pooledVolumes buyOrders sellOrders)))
        (pooledVolumes buyOrders sellOrders) := by
      rw [List.mem_filter]
      exact ⟨hv, by simpa using hle⟩
    exact List.length_pos.mpr (List.ne_nil_of_mem hmem)
  have hthr : (detectWhaleActivity buyOrders sellOrders).whaleThreshold
      = percentile95 (pooledVolumes buyOrders sellOrders) := by
    simp only [detectWhaleActivity, if_neg hpool]
  refine ⟨hdet, ⟨v, hv, by rw [hthr]; exact hle⟩, fun imbalance walls spread => ?_⟩
  simp only [calculateBandarmologyScore, whaleAdjustment, hdet, if_true]

/-- Witness for `whale_always_detected` on a concrete two-sided order book. -/
theorem whale_always_detected_witness :
    (detectWhaleActivity [⟨100, 50⟩, ⟨99, 30⟩] [⟨101, 10⟩, ⟨102, 5⟩]).whaleDetected = true :=
  (whale_always_detected [⟨100, 50⟩, ⟨99, 30⟩] [⟨101, 10⟩, ⟨102, 5⟩]
    (by decide) (by decide)).1

end CryptoAnalyzer
